import Mathlib

/-!
Verification of the core logic of the MAP youth-policy recommendation
system: profile validation (`backend/core/security.py`), the policy
scoring and matching engine (spec §4.2–§4.3; `agents/agent3_matching.py`
is absent from the source tree, so it is modelled from the spec),
presentation grading (spec §4.4), the `/api/match` catalog-fallback flow
(`backend/main.py`), the LRU cache (`backend/core/performance.py`) and
password hashing (`backend/core/security.py`).

Scores and thresholds are Python floats in the source; every value the
engine produces is a small integer sum, so they are embedded as `ℚ`,
which is exact on all values that occur.
-/

namespace MAP

/-- Validated user profile (spec §3; fields of `SecureProfileRequest` in
`backend/core/security.py` and of `MatchRequest` in `backend/main.py`). -/
structure UserProfile where
  age : Int
  region : String
  income : Int
  employment : String
  interest : Option String
  deriving DecidableEq, Repr

/-- Policy record (spec §3; the dict shape consumed by Agent3, as built in
`backend/main.py` lines 423–487 and `tests/test_agents.py` lines 184–213). -/
structure Policy where
  policy_id : String
  title : String
  category : String
  target_age_min : Int
  target_age_max : Int
  target_regions : List String
  target_employment : List String
  target_income_max : Option Int
  benefit : String
  budget_max : Option Int
  deadline : Option String
  application_url : Option String
  deriving DecidableEq, Repr

/-! ## Profile validation (`backend/core/security.py`) -/

/-- Canonical employment values of `SecureProfileRequest.validate_employment`
(`backend/core/security.py` lines 264–273). -/
def allowed_employment_values : List String :=
  ["재직자", "구직자", "자영업", "프리랜서", "학생", "무직", "은퇴", "기타"]

/-- Employment validator from `SecureProfileRequest.validate_employment`:
a value outside the canonical list raises `ValueError`, embedded as
`Except.error` with the source's message prefix. -/
def validate_employment (v : String) : Except String String :=
  if v ∈ allowed_employment_values then Except.ok v
  else Except.error "허용된 고용 상태: 재직자, 구직자, 자영업, 프리랜서, 학생, 무직, 은퇴, 기타"

/-- Error kinds produced by the pydantic bounds `ge=18, le=39` on
`SecureProfileRequest.age`: the two violations yield distinct pydantic
error types (not-greater-equal vs not-less-equal), embedded as distinct
constructors. -/
inductive AgeError where
  | belowMinimum (limit : Int)
  | aboveMaximum (limit : Int)
  deriving DecidableEq, Repr

/-- Age validation from `SecureProfileRequest`
(`age: int = Field(..., ge=18, le=39)`, `backend/core/security.py` line 246). -/
def validate_age (age : Int) : Except AgeError Int :=
  if age < 18 then Except.error (AgeError.belowMinimum 18)
  else if 39 < age then Except.error (AgeError.aboveMaximum 39)
  else Except.ok age

/-- Validity of a profile after the Profile Validator ran (spec §3/§4.1):
age in [18, 39], non-empty region, non-negative income, non-empty
employment string. -/
def ValidProfile (p : UserProfile) : Prop :=
  18 ≤ p.age ∧ p.age ≤ 39 ∧ p.region ≠ "" ∧ 0 ≤ p.income ∧ p.employment ≠ ""

instance (p : UserProfile) : Decidable (ValidProfile p) := by
  unfold ValidProfile; infer_instance

/-! ## Scoring Engine (spec §4.2; `agents/agent3_matching.py` is not in the
source tree, so the engine is modelled from the spec) -/

/-- Modelled from the spec: weight of the age criterion (spec §4.2, "Age
match (weight ~30)"; the §8 scenarios fix it at exactly 30). -/
def AGE_WEIGHT : ℚ := 30

/-- Modelled from the spec: weight of the region criterion (spec §4.2). -/
def REGION_WEIGHT : ℚ := 20

/-- Modelled from the spec: weight of the employment criterion (spec §4.2). -/
def EMPLOYMENT_WEIGHT : ℚ := 20

/-- Modelled from the spec: weight of the income criterion (spec §4.2). -/
def INCOME_WEIGHT : ℚ := 15

/-- Modelled from the spec: weight of the interest criterion (spec §4.2). -/
def INTEREST_WEIGHT : ℚ := 15

/-- Lower-cases a string character-wise (used for the case-insensitive
interest/category comparison of spec §4.2). -/
def lowerStr (s : String) : String := ⟨s.data.map Char.toLower⟩

/-- Modelled from the spec: age criterion, satisfied when
`target_age_min <= profile.age <= target_age_max` (spec §4.2). -/
def age_matches (p : UserProfile) (pol : Policy) : Bool :=
  decide (pol.target_age_min ≤ p.age ∧ p.age ≤ pol.target_age_max)

/-- Modelled from the spec: region criterion, satisfied when the profile
region is targeted, or the nationwide sentinel "전국" is targeted, or the
region list is empty (unrestricted) (spec §4.2). -/
def region_matches (p : UserProfile) (pol : Policy) : Bool :=
  decide (p.region ∈ pol.target_regions ∨ "전국" ∈ pol.target_regions ∨
    pol.target_regions = [])

/-- Modelled from the spec: employment criterion, satisfied when the target
list is empty (unrestricted) or contains the profile's employment (spec §4.2). -/
def employment_matches (p : UserProfile) (pol : Policy) : Bool :=
  decide (pol.target_employment = [] ∨ p.employment ∈ pol.target_employment)

/-- Modelled from the spec: income criterion, satisfied when
`target_income_max` is absent (unrestricted) or the profile income is at
most the cap (spec §4.2). -/
def income_matches (p : UserProfile) (pol : Policy) : Bool :=
  match pol.target_income_max with
  | none => true
  | some m => decide (p.income ≤ m)

/-- Modelled from the spec: interest criterion, satisfied when the profile
interest is present and case-insensitively matches (exact or substring)
the policy's category (spec §4.2). -/
def interest_matches (p : UserProfile) (pol : Policy) : Bool :=
  match p.interest with
  | none => false
  | some i =>
    decide (lowerStr i = lowerStr pol.category ∨
      (lowerStr i).data <:+: (lowerStr pol.category).data)

/-- Modelled from the spec: raw score, the sum of the weights of the
satisfied criteria (spec §4.2). -/
def raw_score (p : UserProfile) (pol : Policy) : ℚ :=
  (if age_matches p pol then AGE_WEIGHT else 0) +
  (if region_matches p pol then REGION_WEIGHT else 0) +
  (if employment_matches p pol then EMPLOYMENT_WEIGHT else 0) +
  (if income_matches p pol then INCOME_WEIGHT else 0) +
  (if interest_matches p pol then INTEREST_WEIGHT else 0)

/-- Modelled from the spec: final score, the raw sum defensively clamped
to [0, 100] (spec §4.2, "implementations must still defensively clamp"):
Python's `max(0.0, min(score, 100.0))` written with explicit comparisons. -/
def policy_score (p : UserProfile) (pol : Policy) : ℚ :=
  if raw_score p pol < 0 then 0
  else if 100 < raw_score p pol then 100
  else raw_score p pol

/-- Modelled from the spec: one human-readable reason per satisfied
criterion, emitted in the canonical evaluation order age, region,
employment, income, interest (spec §4.2). -/
def match_reasons_for (p : UserProfile) (pol : Policy) : List String :=
  (if age_matches p pol then ["연령 조건 충족"] else []) ++
  (if region_matches p pol then ["지역 조건 충족"] else []) ++
  (if employment_matches p pol then ["고용 형태 조건 충족"] else []) ++
  (if income_matches p pol then ["소득 조건 충족"] else []) ++
  (if interest_matches p pol then ["관심 분야 일치"] else [])

/-- Modelled from the spec: the Scoring Engine's contract
`score(profile, policy) -> (score, reasons)` (spec §4.2). -/
def score_policy (p : UserProfile) (pol : Policy) : ℚ × List String :=
  (policy_score p pol, match_reasons_for p pol)

/-- Match result produced by the Scoring Engine (spec §3; `MatchResult` in
`backend/main.py` lines 99–107). The benefit summary is the policy's
benefit text passed through for display. -/
structure MatchResult where
  policy_id : String
  title : String
  category : String
  score : ℚ
  match_reasons : List String
  benefit_summary : String
  deadline : Option String
  deriving DecidableEq, Repr

/-- Modelled from the spec: builds the `MatchResult` for one
(profile, policy) pair (spec §3/§4.2). -/
def make_match_result (p : UserProfile) (pol : Policy) : MatchResult :=
  { policy_id := pol.policy_id
    title := pol.title
    category := pol.category
    score := policy_score p pol
    match_reasons := match_reasons_for p pol
    benefit_summary := pol.benefit
    deadline := pol.deadline }

/-! ## Match Orchestrator (spec §4.3, modelled from the spec) -/

/-- Ordering used by the orchestrator's sort: score descending. -/
def scoreGe (a b : MatchResult) : Prop := b.score ≤ a.score

instance : DecidableRel scoreGe :=
  fun a b => inferInstanceAs (Decidable (b.score ≤ a.score))

instance : IsTotal MatchResult scoreGe := ⟨fun a b => le_total b.score a.score⟩

instance : IsTrans MatchResult scoreGe := ⟨fun _ _ _ h1 h2 => le_trans h2 h1⟩

/-- Modelled from the spec: every policy scored in catalog order, results
below `min_score` discarded (spec §4.3, "discard results with
score < min_score"). -/
def eligible_results (p : UserProfile) (policies : List Policy) (min_score : ℚ) :
    List MatchResult :=
  (policies.map (make_match_result p)).filter (fun r => min_score ≤ r.score)

/-- Modelled from the spec: the Match Orchestrator's
`match(profile, policies, min_score, max_results)`: score every policy,
filter by minimum score, stable-sort by score descending (insertion sort,
ties keep catalog order), truncate to `max_results`; a non-positive
`max_results` yields the empty result (spec §4.3). -/
def match_policies (p : UserProfile) (policies : List Policy) (min_score : ℚ)
    (max_results : Int) : List MatchResult :=
  (List.insertionSort scoreGe (eligible_results p policies min_score)).take
    max_results.toNat

/-- Aggregate summary (spec §3 `MatchSummary`); the category distribution is
a count per category name. -/
structure MatchSummary where
  success : Bool
  message : String
  user_profile_summary : String
  total_matches : Nat
  avg_score : ℚ
  category_distribution : List (String × Nat)
  deriving DecidableEq, Repr

/-- Modelled from the spec: the deterministic one-line profile synopsis
(spec §4.3; template as in `backend/main.py` line 564, without the
thousands separator of Python's `:,` format). -/
def profile_summary_line (p : UserProfile) : String :=
  toString p.age ++ "세, " ++ p.region ++ " 거주, 연소득 " ++ toString p.income ++
    "만원, " ++ p.employment ++
    (match p.interest with
     | some i => ", 관심분야: " ++ i
     | none => "")

/-- Modelled from the spec: occurrence count of each result category
(spec §4.3; insertion order of the mapping is irrelevant). -/
def count_categories (rs : List MatchResult) : List (String × Nat) :=
  (rs.map (fun r => r.category)).dedup.map
    (fun c => (c, rs.countP (fun r => r.category == c)))

/-- Modelled from the spec: `summarize(profile, results) -> MatchSummary`;
`avg_score` is the arithmetic mean of the result scores and `0.0` when
`results` is empty, not a division error (spec §4.3). -/
def get_matching_summary (p : UserProfile) (results : List MatchResult) :
    MatchSummary :=
  { success := true
    message := toString results.length ++ "개의 정책이 매칭되었습니다"
    user_profile_summary := profile_summary_line p
    total_matches := results.length
    avg_score :=
      if results.length = 0 then 0
      else (results.map (fun r => r.score)).sum / (results.length : ℚ)
    category_distribution := count_categories results }

/-! ## Presentation Formatter (spec §4.4, modelled from the spec) -/

/-- Modelled from the spec: the Presentation Formatter's score grading, a
pure step function evaluated top-down, first matching band wins
(spec §4.4; `tests/test_agents.py` lines 473–502). -/
def get_score_grade (s : ℚ) : String :=
  if 90 ≤ s then "S"
  else if 80 ≤ s then "A"
  else if 70 ≤ s then "B"
  else if 60 ≤ s then "C"
  else "D"

/-! ## The `/api/match` endpoint (`backend/main.py` lines 396–524) -/

/-- Policy summary shape returned by the Policy Catalog Accessor (Agent2)
and consumed by the endpoint's conversion loop (`backend/main.py`
lines 470–487). -/
structure PolicySummary where
  policy_id : String
  title : String
  category : String
  benefit : String
  deadline : Option String
  deriving DecidableEq, Repr

/-- Outcome of the Policy Catalog Accessor's fetch: a success flag plus the
policies (spec §6; `agent2.get_policies_from_db()` in `backend/main.py`). -/
structure CatalogFetchResult where
  success : Bool
  policies : List PolicySummary
  deriving DecidableEq, Repr

/-- The fixed built-in policy set the endpoint falls back to when the
catalog accessor reports failure (`backend/main.py` lines 423–466). -/
def fallback_policies : List Policy :=
  [{ policy_id := "JOB_001"
     title := "청년 창업 지원금"
     category := "창업"
     target_age_min := 18
     target_age_max := 39
     target_regions := ["전국"]
     target_employment := ["구직자", "자영업"]
     target_income_max := some 10000
     benefit := "최대 5천만원 지원"
     budget_max := some 5000
     deadline := some "2024년 12월 31일"
     application_url := some "https://startup.go.kr" },
   { policy_id := "FIN_001"
     title := "청년희망적금"
     category := "금융"
     target_age_min := 19
     target_age_max := 34
     target_regions := ["전국"]
     target_employment := ["재직자", "구직자"]
     target_income_max := some 3600
     benefit := "월 10만원 적립시 정부지원금 10만원"
     budget_max := some 240
     deadline := some "2024년 12월 31일"
     application_url := some "https://finlife.or.kr" },
   { policy_id := "HOU_001"
     title := "청년 주택 지원"
     category := "주거"
     target_age_min := 19
     target_age_max := 34
     target_regions := ["전국"]
     target_employment := ["재직자", "구직자"]
     target_income_max := some 6000
     benefit := "전세자금 최대 2억원"
     budget_max := some 20000
     deadline := some "연중 상시"
     application_url := some "https://hf.go.kr" }]

/-- Conversion of a catalog policy summary into the matching shape, with
the default targeting values hard-coded in `backend/main.py`
lines 473–486. -/
def db_policy_defaults (ps : PolicySummary) : Policy :=
  { policy_id := ps.policy_id
    title := ps.title
    category := ps.category
    target_age_min := 18
    target_age_max := 39
    target_regions := ["전국"]
    target_employment := ["구직자", "재직자"]
    target_income_max := none
    benefit := ps.benefit
    budget_max := none
    deadline := ps.deadline
    application_url := some "" }

/-- Policy list the endpoint hands to the matcher: the converted catalog
policies on success, the fixed built-in set on failure
(`backend/main.py` lines 421–487). -/
def policies_for_match (cat : CatalogFetchResult) : List Policy :=
  if cat.success then cat.policies.map db_policy_defaults
  else fallback_policies

/-- Request body of `/api/match` (`MatchRequest` in `backend/main.py`
lines 89–97). -/
structure MatchRequest where
  age : Int
  region : String
  income : Int
  employment : String
  interest : Option String
  min_score : ℚ
  max_results : Int
  deriving DecidableEq, Repr

/-- Profile dict the endpoint builds from the request
(`backend/main.py` lines 410–416). -/
def profile_of_request (req : MatchRequest) : UserProfile :=
  { age := req.age
    region := req.region
    income := req.income
    employment := req.employment
    interest := req.interest }

/-- Response body of `/api/match` (`MatchResponse` in `backend/main.py`
lines 109–117). -/
structure MatchResponse where
  success : Bool
  message : String
  user_profile_summary : String
  total_matches : Nat
  avg_score : ℚ
  category_distribution : List (String × Nat)
  recommendations : List MatchResult
  deriving DecidableEq, Repr

/-- The `/api/match` handler (`match_policies` in `backend/main.py`
lines 396–524): picks the policy list according to the catalog fetch
outcome, runs the matcher and the summary, and assembles the response
from the summary fields. -/
def match_policies_route (req : MatchRequest) (cat : CatalogFetchResult) :
    MatchResponse :=
  let profile := profile_of_request req
  let results := match_policies profile (policies_for_match cat)
    req.min_score req.max_results
  let summary := get_matching_summary profile results
  { success := summary.success
    message := summary.message
    user_profile_summary := summary.user_profile_summary
    total_matches := summary.total_matches
    avg_score := summary.avg_score
    category_distribution := summary.category_distribution
    recommendations := results }

/-! ## LRU cache (`backend/core/performance.py` lines 24–94) -/

/-- State of `LRUCache`: the `OrderedDict` is embedded as an association
list ordered oldest-first (front = least recently used), each entry
carrying its value and its insertion timestamp (the `timestamps` dict). -/
structure LRUCache (α : Type) where
  max_size : Nat
  ttl : Nat
  entries : List (String × α × Nat)

/-- A fresh cache, as built by `LRUCache.__init__`. -/
def LRUCache.init (α : Type) (max_size ttl : Nat) : LRUCache α :=
  ⟨max_size, ttl, []⟩

/-- Membership test `key in self.cache`. -/
def LRUCache.hasKey (c : LRUCache α) (k : String) : Bool :=
  c.entries.any (fun e => e.1 == k)

/-- `LRUCache.put` (`performance.py` lines 56–69): an existing key is moved
to the end and overwritten; otherwise, when the cache is full, the oldest
entry (the `OrderedDict`'s front) is evicted first; then the new entry is
appended with the current time. A full put on an empty zero-capacity
cache raises `StopIteration` in the source, leaving the dicts unchanged,
embedded as returning the state unchanged. -/
def LRUCache.put (c : LRUCache α) (now : Nat) (k : String) (v : α) :
    LRUCache α :=
  { c with entries :=
      if c.hasKey k then
        c.entries.filter (fun e => e.1 != k) ++ [(k, v, now)]
      else if c.max_size ≤ c.entries.length then
        match c.entries with
        | [] => c.entries
        | _ :: rest => rest ++ [(k, v, now)]
      else
        c.entries ++ [(k, v, now)] }

/-- `LRUCache.get` (`performance.py` lines 41–54): a hit whose age exceeds
the TTL is deleted and misses; a live hit is moved to the end (keeping
its timestamp) and returned. -/
def LRUCache.get (c : LRUCache α) (now : Nat) (k : String) :
    Option α × LRUCache α :=
  match c.entries.find? (fun e => e.1 == k) with
  | none => (none, c)
  | some (_, v, ts) =>
    if c.ttl < now - ts then
      (none, { c with entries := c.entries.filter (fun e => e.1 != k) })
    else
      (some v,
        { c with entries := c.entries.filter (fun e => e.1 != k) ++ [(k, v, ts)] })

/-- One cache operation of a client trace. -/
inductive CacheOp (α : Type) where
  | put (now : Nat) (k : String) (v : α)
  | get (now : Nat) (k : String)

/-- State after one operation. -/
def LRUCache.step (c : LRUCache α) : CacheOp α → LRUCache α
  | CacheOp.put now k v => c.put now k v
  | CacheOp.get now k => (c.get now k).2

/-- State after a whole trace of operations. -/
def LRUCache.run (c : LRUCache α) (ops : List (CacheOp α)) : LRUCache α :=
  ops.foldl LRUCache.step c

/-! ## Password hashing (`backend/core/security.py` lines 471–487)

The PBKDF2 digest itself is foreign code (`hashlib.pbkdf2_hmac`); it is
embedded as an explicit function parameter `digestHex`, standing for
`pbkdf2_hmac('sha256', password, salt, 100000).hex()`. Strings are
embedded as character lists so that the `':'`-splitting of
`verify_password` is fully explicit. -/

/-- Hex-digit test for the characters `secrets.token_hex` and `.hex()`
produce (lowercase hexadecimal). -/
def isHexChar (c : Char) : Bool :=
  c.isDigit || (decide ('a' ≤ c) && decide (c ≤ 'f'))

/-- Python's `str.split(':')` on character lists. -/
def splitOnColon : List Char → List (List Char)
  | [] => [[]]
  | c :: cs =>
    if c = ':' then [] :: splitOnColon cs
    else
      match splitOnColon cs with
      | [] => [[c]]
      | p :: ps => (c :: p) :: ps

/-- `hash_password(password, salt)` with an explicit salt: returns
`f"{salt}:{digest.hex()}"` (`security.py` lines 471–478; a fresh call
generates `salt = secrets.token_hex(16)`, a 32-character hex string). -/
def hash_password (digestHex : List Char → List Char → List Char)
    (password salt : List Char) : List Char :=
  salt ++ ':' :: digestHex password salt

/-- `verify_password(password, hashed)` (`security.py` lines 481–487):
splits the stored value on `':'`; anything but exactly two parts raises
`ValueError` on unpacking, caught and turned into `False`; otherwise the
password is re-hashed with the recovered salt and compared with the full
stored value. -/
def verify_password (digestHex : List Char → List Char → List Char)
    (password hashed : List Char) : Bool :=
  match splitOnColon hashed with
  | [salt, _] => hash_password digestHex password salt == hashed
  | _ => false

/-- Sample profile used by the spec's §8 scenarios. -/
def sample_profile : UserProfile := ⟨25, "서울", 3000, "재직자", some "금융"⟩

/-- Sample policy used by the spec's §8 scenarios (the 청년희망적금 record
from `tests/test_agents.py` lines 199–212). -/
def sample_policy_fin : Policy :=
  { policy_id := "FIN_001"
    title := "청년희망적금"
    category := "금융"
    target_age_min := 19
    target_age_max := 34
    target_regions := ["전국"]
    target_employment := ["재직자", "구직자"]
    target_income_max := some 3600
    benefit := "월 10만원 적립시 정부지원금 10만원"
    budget_max := some 240
    deadline := some "2024년 12월 31일"
    application_url := some "https://finlife.or.kr" }

/-! ## Model validation against the spec's §8 scenarios -/

example : (score_policy sample_profile sample_policy_fin).1 = 100 := by
  simp [score_policy, policy_score, raw_score, age_matches, region_matches,
    employment_matches, income_matches, interest_matches, sample_profile,
    sample_policy_fin, AGE_WEIGHT, REGION_WEIGHT, EMPLOYMENT_WEIGHT,
    INCOME_WEIGHT, INTEREST_WEIGHT, lowerStr]
  norm_num

example : (score_policy sample_profile sample_policy_fin).2.length = 5 := by
  simp [score_policy, match_reasons_for, age_matches, region_matches,
    employment_matches, income_matches, interest_matches, sample_profile,
    sample_policy_fin, lowerStr]

example :
    (score_policy sample_profile
      { sample_policy_fin with target_age_max := 20 }).1 = 70 := by
  simp [score_policy, policy_score, raw_score, age_matches, region_matches,
    employment_matches, income_matches, interest_matches, sample_profile,
    sample_policy_fin, AGE_WEIGHT, REGION_WEIGHT, EMPLOYMENT_WEIGHT,
    INCOME_WEIGHT, INTEREST_WEIGHT, lowerStr]
  norm_num

example :
    (score_policy sample_profile
      { sample_policy_fin with target_age_max := 20 }).2 =
    ["지역 조건 충족", "고용 형태 조건 충족", "소득 조건 충족", "관심 분야 일치"] := by
  simp [score_policy, match_reasons_for, age_matches, region_matches,
    employment_matches, income_matches, interest_matches, sample_profile,
    sample_policy_fin, lowerStr]

/-! ## Claim theorems -/

/-- C1: for every validated user profile and every policy record, the
Scoring Engine's score lies in the closed interval [0, 100]. -/
theorem score_in_range (p : UserProfile) (pol : Policy) (_hv : ValidProfile p) :
    0 ≤ (score_policy p pol).1 ∧ (score_policy p pol).1 ≤ 100 := by
  unfold score_policy policy_score
  constructor
  · split
    · exact le_refl 0
    · split
      · norm_num
      · linarith [not_lt.mp (by assumption : ¬ raw_score p pol < 0)]
  · split
    · norm_num
    · split
      · exact le_refl 100
      · exact le_of_not_lt (by assumption)

/-- C1 witness: the range bound instantiated on the §8 sample profile and
policy. -/
theorem score_in_range_witness :
    ValidProfile sample_profile ∧
    (0 ≤ (score_policy sample_profile sample_policy_fin).1 ∧
      (score_policy sample_profile sample_policy_fin).1 ≤ 100) :=
  ⟨by decide, score_in_range sample_profile sample_policy_fin (by decide)⟩

/-- C4 counterexample: "기술자" is a non-empty employment string outside the
canonical set, yet `SecureProfileRequest.validate_employment` rejects it
instead of passing it through. -/
theorem validate_employment_rejects_unknown :
    "기술자" ≠ "" ∧
    validate_employment "기술자" =
      Except.error "허용된 고용 상태: 재직자, 구직자, 자영업, 프리랜서, 학생, 무직, 은퇴, 기타" :=
  ⟨by decide, rfl⟩

/-- C4 (amended): profile validation accepts an employment value exactly
when it is one of the eight canonical values; any other string, even a
non-empty one, is rejected with the allowed-values error. -/
theorem validate_employment_whitelist (v : String) :
    (v ∈ allowed_employment_values → validate_employment v = Except.ok v) ∧
    (v ∉ allowed_employment_values →
      validate_employment v =
        Except.error "허용된 고용 상태: 재직자, 구직자, 자영업, 프리랜서, 학생, 무직, 은퇴, 기타") := by
  constructor <;> intro h <;> unfold validate_employment <;> simp [h]

/-- C4 witness: the amended claim instantiated on a canonical and on an
unknown employment value. -/
theorem validate_employment_whitelist_witness :
    validate_employment "재직자" = Except.ok "재직자" ∧
    validate_employment "기타123" =
      Except.error "허용된 고용 상태: 재직자, 구직자, 자영업, 프리랜서, 학생, 무직, 은퇴, 기타" :=
  ⟨(validate_employment_whitelist "재직자").1 (by decide),
   (validate_employment_whitelist "기타123").2 (by decide)⟩

/-- C5: age validation rejects ages below 18 with the below-minimum error
kind and ages above 39 with the above-maximum error kind, the two kinds
are distinguishable, and every age from 18 to 39 inclusive is accepted. -/
theorem validate_age_spec (a : Int) :
    (a < 18 → validate_age a = Except.error (AgeError.belowMinimum 18)) ∧
    (39 < a → validate_age a = Except.error (AgeError.aboveMaximum 39)) ∧
    (18 ≤ a → a ≤ 39 → validate_age a = Except.ok a) ∧
    (∀ l₁ l₂ : Int, AgeError.belowMinimum l₁ ≠ AgeError.aboveMaximum l₂) := by
  refine ⟨fun h => ?_, fun h => ?_, fun h1 h2 => ?_, fun l₁ l₂ => by simp⟩
  · unfold validate_age; rw [if_pos h]
  · unfold validate_age; rw [if_neg (by omega), if_pos h]
  · unfold validate_age; rw [if_neg (by omega), if_neg (by omega)]

/-- C5 witness: the boundary ages 17, 40 and an accepted age 25. -/
theorem validate_age_spec_witness :
    validate_age 17 = Except.error (AgeError.belowMinimum 18) ∧
    validate_age 40 = Except.error (AgeError.aboveMaximum 39) ∧
    validate_age 25 = Except.ok 25 :=
  ⟨(validate_age_spec 17).1 (by norm_num),
   (validate_age_spec 40).2.1 (by norm_num),
   (validate_age_spec 25).2.2.1 (by norm_num) (by norm_num)⟩

/-- C2: helper — membership in the matcher's output implies membership in
the eligible (min-score-filtered) list. -/
theorem mem_match_policies_mem_eligible {p : UserProfile} {policies : List Policy}
    {ms : ℚ} {mr : Int} {r : MatchResult}
    (hr : r ∈ match_policies p policies ms mr) :
    r ∈ eligible_results p policies ms := by
  unfold match_policies at hr
  exact (List.perm_insertionSort scoreGe _).mem_iff.mp (List.take_subset _ _ hr)

/-- C2: the matcher returns at most `max_results` results, and every
returned result's score is at least `min_score`. -/
theorem match_respects_cap_and_min_score (p : UserProfile)
    (policies : List Policy) (ms : ℚ) (mr : Int) :
    (match_policies p policies ms mr).length ≤ mr.toNat ∧
    (0 ≤ mr → ((match_policies p policies ms mr).length : Int) ≤ mr) ∧
    ∀ r ∈ match_policies p policies ms mr, ms ≤ r.score := by
  have hlen : (match_policies p policies ms mr).length ≤ mr.toNat := by
    unfold match_policies
    exact List.length_take_le _ _
  refine ⟨hlen, fun h0 => ?_, fun r hr => ?_⟩
  · calc ((match_policies p policies ms mr).length : Int)
        ≤ (mr.toNat : Int) := by exact_mod_cast hlen
      _ = mr := Int.toNat_of_nonneg h0
  · have h3 := mem_match_policies_mem_eligible hr
    unfold eligible_results at h3
    simpa using (List.mem_filter.mp h3).2

/-- C2 witness: the cap and threshold on the §8 sample profile against the
built-in policy set with `min_score = 40`, `max_results = 2`. -/
theorem match_respects_cap_and_min_score_witness :
    (match_policies sample_profile fallback_policies 40 2).length ≤ (2 : Int).toNat ∧
    ((match_policies sample_profile fallback_policies 40 2).length : Int) ≤ 2 ∧
    ∀ r ∈ match_policies sample_profile fallback_policies 40 2, (40 : ℚ) ≤ r.score :=
  ⟨(match_respects_cap_and_min_score sample_profile fallback_policies 40 2).1,
   (match_respects_cap_and_min_score sample_profile fallback_policies 40 2).2.1
     (by norm_num),
   (match_respects_cap_and_min_score sample_profile fallback_policies 40 2).2.2⟩

/-- C3: helper — filtering on an exact score commutes with the
orchestrator's ordered insertion: the equal-score class is untouched. -/
theorem filter_score_orderedInsert (s : ℚ) (x : MatchResult)
    (l : List MatchResult) :
    (List.orderedInsert scoreGe x l).filter (fun r => r.score == s) =
    ((x :: l).filter (fun r => r.score == s)) := by
  induction l with
  | nil => rfl
  | cons b t ih =>
    by_cases h : scoreGe x b
    · rw [List.orderedInsert_of_le _ _ h]
    · have hlt : x.score < b.score := not_le.mp h
      simp only [List.orderedInsert, if_neg h]
      by_cases hx : x.score = s
      · have hb : ¬ b.score = s := hx ▸ ne_of_gt hlt
        simp [List.filter_cons, ih, hx, hb]
      · simp [List.filter_cons, ih, hx]

/-- C3: helper — the insertion sort used by the orchestrator is stable:
the subsequence of any fixed score is exactly as in the input. -/
theorem filter_score_insertionSort (s : ℚ) (l : List MatchResult) :
    (List.insertionSort scoreGe l).filter (fun r => r.score == s) =
    l.filter (fun r => r.score == s) := by
  induction l with
  | nil => rfl
  | cons b t ih =>
    simp only [List.insertionSort]
    rw [filter_score_orderedInsert]
    simp only [List.filter_cons, ih]

/-- C3: helper — filtering a prefix yields a prefix of the filtered list. -/
theorem filter_take_pfx (q : MatchResult → Bool) (k : Nat)
    (L : List MatchResult) : (L.take k).filter q <+: L.filter q :=
  ⟨(L.drop k).filter q, by rw [← List.filter_append, List.take_append_drop]⟩

/-- C3: the matcher's output is sorted by score descending, and results of
equal score keep the relative order of their policies in the catalog: for
every score value, the output's equal-score class is a prefix of the
catalog-ordered eligible list's equal-score class. -/
theorem match_sorted_and_stable (p : UserProfile) (policies : List Policy)
    (ms : ℚ) (mr : Int) :
    (match_policies p policies ms mr).Pairwise scoreGe ∧
    ∀ s : ℚ, (match_policies p policies ms mr).filter (fun r => r.score == s) <+:
      (eligible_results p policies ms).filter (fun r => r.score == s) := by
  constructor
  · have hs : (List.insertionSort scoreGe
        (eligible_results p policies ms)).Pairwise scoreGe :=
      List.sorted_insertionSort scoreGe _
    exact List.Pairwise.sublist (List.take_sublist _ _) hs
  · intro s
    have h1 := filter_take_pfx (fun r => r.score == s) mr.toNat
      (List.insertionSort scoreGe (eligible_results p policies ms))
    rwa [filter_score_insertionSort] at h1

/-- C6: matching an empty catalog yields the empty result, and summarizing
an empty result sequence yields average score 0.0 and zero total matches
without any division-by-zero failure. -/
theorem match_empty_catalog (p : UserProfile) (ms : ℚ) (mr : Int) :
    match_policies p [] ms mr = [] ∧
    (get_matching_summary p []).avg_score = 0 ∧
    (get_matching_summary p []).total_matches = 0 := by
  refine ⟨?_, rfl, rfl⟩
  simp [match_policies, eligible_results]

/-- C7: presentation grading is the top-down step function score ≥ 90 → "S",
otherwise ≥ 80 → "A", otherwise ≥ 70 → "B", otherwise ≥ 60 → "C",
otherwise the lowest tier "D". -/
theorem score_grade_bands (s : ℚ) :
    (90 ≤ s → get_score_grade s = "S") ∧
    (80 ≤ s → s < 90 → get_score_grade s = "A") ∧
    (70 ≤ s → s < 80 → get_score_grade s = "B") ∧
    (60 ≤ s → s < 70 → get_score_grade s = "C") ∧
    (s < 60 → get_score_grade s = "D") := by
  unfold get_score_grade
  refine ⟨fun h => if_pos h, fun h1 h2 => ?_, fun h1 h2 => ?_, fun h1 h2 => ?_,
    fun h => ?_⟩
  · rw [if_neg (not_le.mpr h2), if_pos h1]
  · rw [if_neg (not_le.mpr (by linarith)), if_neg (not_le.mpr h2), if_pos h1]
  · rw [if_neg (not_le.mpr (by linarith)), if_neg (not_le.mpr (by linarith)),
      if_neg (not_le.mpr h2), if_pos h1]
  · rw [if_neg (not_le.mpr (by linarith)), if_neg (not_le.mpr (by linarith)),
      if_neg (not_le.mpr (by linarith)), if_neg (not_le.mpr h)]

/-- C7 witness: one score per band, as in
`TestAgent5Presentation.test_score_grading_system`. -/
theorem score_grade_bands_witness :
    get_score_grade 95 = "S" ∧ get_score_grade 85 = "A" ∧
    get_score_grade 75 = "B" ∧ get_score_grade 65 = "C" ∧
    get_score_grade 30 = "D" :=
  ⟨(score_grade_bands 95).1 (by norm_num),
   (score_grade_bands 85).2.1 (by norm_num) (by norm_num),
   (score_grade_bands 75).2.2.1 (by norm_num) (by norm_num),
   (score_grade_bands 65).2.2.2.1 (by norm_num) (by norm_num),
   (score_grade_bands 30).2.2.2.2 (by norm_num)⟩

/-- C8: whenever the catalog accessor reports failure, the `/api/match`
handler proceeds with the fixed built-in policy set and still produces a
successful response. -/
theorem catalog_failure_falls_back (req : MatchRequest) (cat : CatalogFetchResult)
    (h : cat.success = false) :
    policies_for_match cat = fallback_policies ∧
    (match_policies_route req cat).success = true := by
  refine ⟨?_, rfl⟩
  simp [policies_for_match, h]

/-- C8 witness: a failed catalog fetch on a concrete request. -/
theorem catalog_failure_falls_back_witness :
    policies_for_match ⟨false, []⟩ = fallback_policies ∧
    (match_policies_route ⟨25, "서울", 3000, "재직자", none, 40, 10⟩
      ⟨false, []⟩).success = true :=
  catalog_failure_falls_back ⟨25, "서울", 3000, "재직자", none, 40, 10⟩ ⟨false, []⟩ rfl

/-- C9: helper — removing by a predicate that some member falsifies
strictly shrinks a list. -/
theorem length_filter_lt {β : Type} (q : β → Bool) (l : List β) (x : β)
    (hx : x ∈ l) (hq : q x = false) : (l.filter q).length < l.length := by
  induction l with
  | nil => cases hx
  | cons a t ih =>
    rcases List.mem_cons.mp hx with rfl | hx'
    · rw [List.filter_cons, hq]
      exact Nat.lt_succ_of_le (List.length_filter_le _ _)
    · rw [List.filter_cons]
      cases hqa : q a
      · simp only [Bool.false_eq_true, if_false]
        exact Nat.lt_succ_of_le (le_of_lt (ih hx'))
      · simp only [if_true]
        exact Nat.succ_lt_succ (ih hx')

/-- C9: helper — `put` never pushes the entry count above the capacity. -/
theorem put_entries_length_le {α : Type} {c : LRUCache α}
    (h : c.entries.length ≤ c.max_size) (now : Nat) (k : String) (v : α) :
    (c.put now k v).entries.length ≤ c.max_size := by
  unfold LRUCache.put
  dsimp only
  by_cases hk : c.hasKey k
  · rw [if_pos hk]
    unfold LRUCache.hasKey at hk
    obtain ⟨x, hx, hpx⟩ := List.any_eq_true.mp hk
    have hfx : (fun e : String × α × Nat => e.1 != k) x = false := by
      simp only [bne, hpx, Bool.not_true]
    have hlt := length_filter_lt (fun e : String × α × Nat => e.1 != k)
      c.entries x hx hfx
    simp only [List.length_append, List.length_cons, List.length_nil]
    omega
  · rw [if_neg hk]
    by_cases hf : c.max_size ≤ c.entries.length
    · rw [if_pos hf]
      cases hE : c.entries with
      | nil => simp [hE]
      | cons e rest =>
        simp only [List.length_append, List.length_cons, List.length_nil]
        have hlen : c.entries.length = rest.length + 1 := by rw [hE]; rfl
        omega
    · rw [if_neg hf]
      simp only [List.length_append, List.length_cons, List.length_nil]
      omega

/-- C9: helper — `get` never increases the entry count. -/
theorem get_entries_length_le {α : Type} (c : LRUCache α) (now : Nat)
    (k : String) : ((c.get now k).2).entries.length ≤ c.entries.length := by
  unfold LRUCache.get
  cases hf : c.entries.find? (fun e => e.1 == k) with
  | none => exact le_refl _
  | some x =>
    obtain ⟨k', v, ts⟩ := x
    dsimp only
    split
    · exact List.length_filter_le _ _
    · have hmem : (k', v, ts) ∈ c.entries := List.mem_of_find?_eq_some hf
      have hpred : (k' == k) = true := by simpa using List.find?_some hf
      have hfx : (fun e : String × α × Nat => e.1 != k) (k', v, ts) = false := by
        simp only [bne, hpred, Bool.not_true]
      have hlt := length_filter_lt (fun e : String × α × Nat => e.1 != k)
        c.entries (k', v, ts) hmem hfx
      simp only [List.length_append, List.length_cons, List.length_nil]
      omega

/-- C9: helper — `get` keeps the capacity. -/
theorem get_max_size {α : Type} (c : LRUCache α) (now : Nat) (k : String) :
    ((c.get now k).2).max_size = c.max_size := by
  unfold LRUCache.get
  cases c.entries.find? (fun e => e.1 == k) with
  | none => rfl
  | some x =>
    obtain ⟨k', v, ts⟩ := x
    dsimp only
    split <;> rfl

/-- C9: helper — one operation keeps the capacity. -/
theorem step_max_size {α : Type} (c : LRUCache α) (op : CacheOp α) :
    (c.step op).max_size = c.max_size := by
  cases op with
  | put now k v => rfl
  | get now k => exact get_max_size c now k

/-- C9: helper — one operation preserves the size invariant. -/
theorem step_inv {α : Type} {c : LRUCache α}
    (h : c.entries.length ≤ c.max_size) (op : CacheOp α) :
    (c.step op).entries.length ≤ (c.step op).max_size := by
  rw [step_max_size]
  cases op with
  | put now k v => exact put_entries_length_le h now k v
  | get now k => exact le_trans (get_entries_length_le c now k) h

/-- C9: helper — a whole trace preserves the size invariant. -/
theorem run_inv {α : Type} (ops : List (CacheOp α)) : ∀ c : LRUCache α,
    c.entries.length ≤ c.max_size →
    (c.run ops).entries.length ≤ c.max_size := by
  induction ops with
  | nil => intro c h; exact h
  | cons op t ih =>
    intro c h
    have h2 := ih (c.step op) (step_inv h op)
    rw [step_max_size] at h2
    exact h2

/-- C9: for every cache built with capacity N and every trace of put and
get operations, the number of stored entries never exceeds N (a put on a
full cache evicts the least-recently-used entry before inserting). -/
theorem lru_cache_size_invariant (α : Type) (N ttl : Nat)
    (ops : List (CacheOp α)) :
    ((LRUCache.init α N ttl).run ops).entries.length ≤ N :=
  run_inv ops (LRUCache.init α N ttl) (Nat.zero_le N)

/-- C10: helper — splitting a colon-free string gives it back whole. -/
theorem splitOnColon_no_colon (l : List Char) (h : ':' ∉ l) :
    splitOnColon l = [l] := by
  induction l with
  | nil => rfl
  | cons c cs ih =>
    simp only [List.mem_cons, not_or] at h
    have hc : ¬ c = ':' := fun e => h.1 e.symm
    simp only [splitOnColon, if_neg hc, ih h.2]

/-- C10: helper — splitting around the first colon separates the
colon-free head from the tail. -/
theorem splitOnColon_append (s t : List Char) (hs : ':' ∉ s) :
    splitOnColon (s ++ ':' :: t) = s :: splitOnColon t := by
  induction s with
  | nil => simp [splitOnColon]
  | cons c cs ih =>
    simp only [List.mem_cons, not_or] at hs
    have hc : ¬ c = ':' := fun e => hs.1 e.symm
    simp only [List.cons_append, splitOnColon, if_neg hc, List.append_eq, ih hs.2]

/-- C10: verifying a password against its own fresh hash succeeds: with a
hex salt (as produced by `secrets.token_hex`) and a hex digest (as
produced by `.hex()`), `verify_password(p, hash_password(p))` is True. -/
theorem verify_after_hash (digestHex : List Char → List Char → List Char)
    (password salt : List Char)
    (hsalt : ∀ c ∈ salt, isHexChar c = true)
    (hdig : ∀ c ∈ digestHex password salt, isHexChar c = true) :
    verify_password digestHex password
      (hash_password digestHex password salt) = true := by
  have hs : ':' ∉ salt := fun hm => absurd (hsalt ':' hm) (by decide)
  have hd : ':' ∉ digestHex password salt :=
    fun hm => absurd (hdig ':' hm) (by decide)
  unfold verify_password hash_password
  rw [splitOnColon_append _ _ hs, splitOnColon_no_colon _ hd]
  simp

/-- C10 witness: the round trip on a concrete password, hex salt and
(stubbed) hex digest function. -/
theorem verify_after_hash_witness :
    (∀ c ∈ ['0', 'f'], isHexChar c = true) ∧
    verify_password (fun _ _ => ['a', 'b']) ['p', 'w']
      (hash_password (fun _ _ => ['a', 'b']) ['p', 'w'] ['0', 'f']) = true :=
  ⟨by decide,
   verify_after_hash (fun _ _ => ['a', 'b']) ['p', 'w'] ['0', 'f']
     (by decide) (by decide)⟩

end MAP
